import Mathlib

/-!
Verification of the leaderboard backend's real-time submission and broadcast
core, shallowly embedded from the TypeScript sources:

* `src/src/services/dynamoService.ts` — `DynamoService.submitScore`,
  `getUserScore`, `getTopScores` (the Submission Gate and Score Store reads);
* `src/src/routes/scores.ts` — the `POST /submit` route (request validation
  and the route-level HIGH_SCORE websocket notification);
* `src/services/websocketService.ts` — `WebSocketService` (connection
  registry, `sendNotification`, `broadcastLeaderboardUpdate`, `getStats`).

JavaScript numbers that carry scores are modelled as rationals (`ℚ`), ISO
timestamp strings as naturals ordered chronologically, and the DynamoDB table
as a list of records in scan order.  Effectful calls are modelled by explicit
state passing; a websocket emit that may throw is modelled by a boolean-valued
delivery function.
-/

namespace Leaderboard

/-- A stored score row, from `ScoreRecord` in `src/src/types/index.ts`:
`{userId, score, username, timestamp}`. -/
structure ScoreRecord where
  userId : String
  score : ℚ
  username : String
  timestamp : Nat
deriving DecidableEq, Repr

/-- The DynamoDB table `leaderboard-scores`, in scan order. -/
abbrev Store := List ScoreRecord

/-- `DynamoService.getUserScore`: a `QueryCommand` on `userId = :userId`,
returning `Items[0]` when present (`dynamoService.ts`, lines 90-117).  The
model returns the first record in the table with the given key. -/
def getUserScore (store : Store) (userId : String) : Option ScoreRecord :=
  store.find? (fun r => r.userId == userId)

/-- The validity filter inside `DynamoService.getTopScores`
(`item.username && item.score !== undefined`): `username` must be truthy,
i.e. a non-empty string (scores are always present in the model). -/
def validRecord (r : ScoreRecord) : Bool :=
  r.username ≠ ""

/-- The comparator `(a, b) => b.score - a.score` used by
`DynamoService.getTopScores`: `a` may precede `b` exactly when
`b.score ≤ a.score`. -/
def scoreDescComp (a b : ScoreRecord) : Prop :=
  b.score ≤ a.score

instance : DecidableRel scoreDescComp := fun a b =>
  inferInstanceAs (Decidable (b.score ≤ a.score))

instance : IsTotal ScoreRecord scoreDescComp :=
  ⟨fun a b => le_total b.score a.score⟩

instance : IsTrans ScoreRecord scoreDescComp :=
  ⟨fun _ _ _ h1 h2 => le_trans h2 h1⟩

/-- `DynamoService.getTopScores(limit)` (`dynamoService.ts`, lines 121-155):
scan the whole table, keep valid rows, stable-sort by score descending with
the comparator `(a, b) => b.score - a.score` (ECMAScript `Array.prototype.sort`
is stable, so equal scores keep scan order), then `slice(0, limit)`. -/
def getTopScores (limit : Nat) (store : Store) : List ScoreRecord :=
  (List.insertionSort scoreDescComp (store.filter validRecord)).take limit

/-- The notification kinds dispatched through the websocket layer:
`HIGH_SCORE` and `NEW_PLAYER` via `sendNotification`, and the leaderboard
payload via `broadcastLeaderboardUpdate`. -/
inductive NotifKind where
  | highScore
  | newPlayer
  | leaderboardUpdate
deriving DecidableEq, Repr

/-- A dispatched websocket notification: kind, the submitting user, the score,
and (for leaderboard updates) the top-score entries in the payload. -/
structure Notif where
  kind : NotifKind
  username : String
  score : ℚ
  entries : List ScoreRecord
deriving DecidableEq, Repr

/-- `SubmitScoreResponse` from `src/src/types/index.ts`: `success`, optional
`error`, `isHighScore`, `isFirstScore`, `alreadySubmitted`. -/
structure SubmitScoreResponse where
  success : Bool
  error : Option String
  isHighScore : Option Bool
  isFirstScore : Option Bool
  alreadySubmitted : Option Bool
deriving DecidableEq, Repr

/-- The fixed duplicate-submission message returned by
`DynamoService.submitScore`. -/
def alreadySubmittedMsg : String :=
  "You have already submitted a score. Each user can only submit once."

/-- The rejection response built by `DynamoService.submitScore` when a record
already exists for the user (`dynamoService.ts`, lines 27-34). -/
def alreadySubmittedResponse : SubmitScoreResponse :=
  { success := false
    error := some alreadySubmittedMsg
    isHighScore := none
    isFirstScore := none
    alreadySubmitted := some true }

/-- The acceptance response built by `DynamoService.submitScore`
(`dynamoService.ts`, lines 74-79): `isHighScore` is hard-coded `true`. -/
def acceptedResponse : SubmitScoreResponse :=
  { success := true
    error := none
    isHighScore := some true
    isFirstScore := some true
    alreadySubmitted := some false }

/-- The catch-all response of `DynamoService.submitScore` when the store
write throws (`dynamoService.ts`, lines 81-87). -/
def storeFailureResponse : SubmitScoreResponse :=
  { success := false
    error := some "Failed to submit score"
    isHighScore := none
    isFirstScore := none
    alreadySubmitted := none }

/-- Result of one `DynamoService.submitScore` call: the typed response, the
table afterwards, and the notifications the gate dispatched. -/
structure SubmitResult where
  resp : SubmitScoreResponse
  store : Store
  notifs : List Notif
deriving DecidableEq, Repr

/-- Dispatch a list of notifications in order through a delivery function
(`true` = the emit succeeded, `false` = it threw).  The first throw aborts the
rest of the `try` block; the thrown error is caught by the gate.  Returns the
notifications dispatched before the throw. -/
def runNotifs (deliver : Notif → Bool) : List Notif → List Notif
  | [] => []
  | n :: ns => if deliver n then n :: runNotifs deliver ns else []

/-- The notification sequence attempted by the gate's `try` block after a
successful put (`dynamoService.ts`, lines 49-72): a HIGH_SCORE when
`score > 1000`, then NEW_PLAYER, then the leaderboard broadcast built from
`getTopScores(10)` on the updated table. -/
def gateNotifSeq (username : String) (score : ℚ) (store : Store) : List Notif :=
  (if 1000 < score then [⟨NotifKind.highScore, username, score, []⟩] else [])
    ++ [⟨NotifKind.newPlayer, username, score, []⟩]
    ++ [⟨NotifKind.leaderboardUpdate, username, score, getTopScores 10 store⟩]

/-- `DynamoService.submitScore(userId, username, score)` (`dynamoService.ts`,
lines 20-88).  Reads the user's record; if one exists it returns the
`alreadySubmitted` rejection with no write and no notifications.  Otherwise it
puts a new record (`putOk = false` models the put throwing, caught by the
outer `catch`), then dispatches the notification sequence inside a `try` whose
failures are logged and swallowed, and returns the hard-coded acceptance. -/
def submitScore (deliver : Notif → Bool) (putOk : Bool) (store : Store)
    (userId username : String) (score : ℚ) (timestamp : Nat) : SubmitResult :=
  match getUserScore store userId with
  | some _ => ⟨alreadySubmittedResponse, store, []⟩
  | none =>
    if putOk then
      let store' := store ++ [⟨userId, score, username, timestamp⟩]
      ⟨acceptedResponse, store', runNotifs deliver (gateNotifSeq username score store')⟩
    else
      ⟨storeFailureResponse, store, []⟩

/-- The request body's `score` field as the route sees it after JSON parsing:
either a JavaScript number (modelled as a rational) or a value of some other
type, which `typeof score !== 'number'` rejects. -/
inductive BodyScore where
  | num (q : ℚ)
  | other
deriving DecidableEq, Repr

/-- HTTP status of the `POST /submit` route's response. -/
inductive RouteStatus where
  | ok200
  | bad400
  | conflict409
  | err500
deriving DecidableEq, Repr

/-- Result of one `POST /submit` request: status, the table afterwards,
every notification dispatched during the request (gate-level then
route-level), and whether the Score Store was accessed at all. -/
structure RouteResult where
  status : RouteStatus
  store : Store
  notifs : List Notif
  storeAccessed : Bool
deriving DecidableEq, Repr

/-- The `POST /submit` handler in `src/src/routes/scores.ts` (lines 15-77).
Validation: a non-number or negative `score` → 400, `score > 1000000` → 400,
both before any store access.  Otherwise `DynamoService.submitScore` runs; on
success, if `score > 1000` the route additionally sends its own HIGH_SCORE
notification inside a `try/catch` (a throw is logged, the request still
succeeds), and responds 200.  On `alreadySubmitted` it responds 409, on other
failures 500. -/
def postSubmit (deliver : Notif → Bool) (putOk : Bool) (store : Store)
    (userId username : String) (body : BodyScore) (timestamp : Nat) : RouteResult :=
  match body with
  | BodyScore.other => ⟨RouteStatus.bad400, store, [], false⟩
  | BodyScore.num score =>
    if score < 0 then ⟨RouteStatus.bad400, store, [], false⟩
    else if 1000000 < score then ⟨RouteStatus.bad400, store, [], false⟩
    else
      let r := submitScore deliver putOk store userId username score timestamp
      if r.resp.success then
        let routeNotifs :=
          if 1000 < score then
            runNotifs deliver [⟨NotifKind.highScore, username, score, []⟩]
          else []
        ⟨RouteStatus.ok200, r.store, r.notifs ++ routeNotifs, true⟩
      else if r.resp.alreadySubmitted = some true then
        ⟨RouteStatus.conflict409, r.store, r.notifs, true⟩
      else
        ⟨RouteStatus.err500, r.store, r.notifs, true⟩

/-- Count of HIGH_SCORE notifications among those dispatched. -/
def highScoreCount (ns : List Notif) : Nat :=
  (ns.filter (fun n => n.kind == NotifKind.highScore)).length

/-! ### WebSocket service (`src/services/websocketService.ts`) -/

/-- The static state of `WebSocketService`: whether `initialize` has run
(`io !== null`) and the `connectedClients` set of socket ids (kept as a
duplicate-free list). -/
structure WsState where
  initialized : Bool
  clients : List String
deriving DecidableEq, Repr

/-- Room membership as tracked by `WebSocketService`.  The service registers
no `join-leaderboard`/`leave-leaderboard` handlers and keeps no room index at
all (`setupEventHandlers`, `websocketService.ts` lines 42-100), so every
room's membership is empty. -/
def roomMembers (_ws : WsState) (_room : String) : List String :=
  []

/-- `WebSocketService.sendNotification(payload)` (`websocketService.ts`,
lines 103-130): if `io` is null it logs and returns normally; otherwise it
emits `notification` (plus the kind-specific event) to every connected client
via `io.emit`.  Returns the list of recipient socket ids; `Except.error`
would model a thrown error, which this function never produces. -/
def sendNotification (ws : WsState) (_payload : Notif) : Except String (List String) :=
  if ws.initialized then Except.ok ws.clients
  else Except.ok []

/-- `WebSocketService.broadcastLeaderboardUpdate(topScores)`
(`websocketService.ts`, lines 133-158): if `io` is null it logs and returns
normally; otherwise it emits `leaderboard_update` to every connected client
via `io.emit` — there is no `io.to(room)` scoping.  Returns the recipient
socket ids. -/
def broadcastLeaderboardUpdate (ws : WsState) (_topScores : List ScoreRecord) :
    Except String (List String) :=
  if ws.initialized then Except.ok ws.clients
  else Except.ok []

/-- `WebSocketService.getStats().connectedClients`
(`websocketService.ts`, lines 182-187): `connectedClients.size`. -/
def getStatsConnectedClients (ws : WsState) : Nat :=
  ws.clients.length

/-- A connection-lifecycle event seen by `setupEventHandlers`: a socket
connects or disconnects with its id. -/
inductive WsEvent where
  | connect (id : String)
  | disconnect (id : String)
deriving DecidableEq, Repr

/-- One event's effect on the `connectedClients` set: `connection` performs
`connectedClients.add(socket.id)` (a no-op when the id is already present),
`disconnect` performs `connectedClients.delete(socket.id)` (a no-op when the
id is absent). -/
def stepClients (s : List String) : WsEvent → List String
  | WsEvent.connect id => if id ∈ s then s else s ++ [id]
  | WsEvent.disconnect id => s.erase id

/-- The `connectedClients` set after a sequence of lifecycle events, starting
from a given set. -/
def runClientsFrom (s : List String) : List WsEvent → List String
  | [] => s
  | e :: es => runClientsFrom (stepClients s e) es

/-- The `connectedClients` set after a sequence of lifecycle events, starting
from the empty set (`new Set<string>()`). -/
def runClients (es : List WsEvent) : List String :=
  runClientsFrom [] es

/-- Whether a given id is live after the events: it starts in state `b` and
the last `connect`/`disconnect` event mentioning it wins. -/
def liveAfterFrom (b : Bool) : List WsEvent → String → Bool
  | [], _ => b
  | WsEvent.connect j :: es, id => liveAfterFrom (if j = id then true else b) es id
  | WsEvent.disconnect j :: es, id => liveAfterFrom (if j = id then false else b) es id

/-- Whether a given id is live (connected and not yet disconnected) after the
events, starting from no connections. -/
def liveAfter (es : List WsEvent) (id : String) : Bool :=
  liveAfterFrom false es id

/-! ### Interleaved executions of the submission gate (race model)

`DynamoService.submitScore` performs a plain read (`getUserScore`) followed,
when the read found nothing, by an unconditional `PutCommand`.  Each of the
two store operations is atomic, but nothing serializes the pair, so two
concurrent calls interleave their reads and writes.  A thread is modelled by
a two-step program: step 0 reads, step 1 decides and (when the read was
empty) writes. -/

/-- Local state of one in-flight `submitScore` call: program counter, the
value its read returned, and its decision once made (`some true` = accepted,
`some false` = rejected as already submitted). -/
structure ThreadState where
  pc : Nat
  readVal : Option ScoreRecord
  accepted : Option Bool
deriving DecidableEq, Repr

/-- A thread before its first step. -/
def threadInit : ThreadState :=
  ⟨0, none, none⟩

/-- One atomic step of a `submitScore` thread writing record `rec`:
pc 0 performs the `getUserScore` read; pc 1 either rejects (read found a
record) or performs the unconditional put and accepts. -/
def threadStep (rec : ScoreRecord) (store : Store) (t : ThreadState) :
    Store × ThreadState :=
  match t.pc with
  | 0 => (store, ⟨1, getUserScore store rec.userId, none⟩)
  | 1 =>
    match t.readVal with
    | some r => (store, ⟨2, some r, some false⟩)
    | none => (store ++ [rec], ⟨2, none, some true⟩)
  | _ => (store, t)

/-- Shared store plus the two thread-local states of two concurrent
`submitScore` calls. -/
structure RaceState where
  store : Store
  t1 : ThreadState
  t2 : ThreadState
deriving DecidableEq, Repr

/-- Run one scheduled step: `true` steps thread 1 (writing `rec1`), `false`
steps thread 2 (writing `rec2`). -/
def raceStep (rec1 rec2 : ScoreRecord) (s : RaceState) (who : Bool) : RaceState :=
  if who then
    let p := threadStep rec1 s.store s.t1
    ⟨p.1, p.2, s.t2⟩
  else
    let p := threadStep rec2 s.store s.t2
    ⟨p.1, s.t1, p.2⟩

/-- Run two concurrent `submitScore` calls under a schedule (a list of
thread choices), from an initial store. -/
def runRace (rec1 rec2 : ScoreRecord) (init : Store) (sched : List Bool) :
    RaceState :=
  sched.foldl (raceStep rec1 rec2) ⟨init, threadInit, threadInit⟩

/-! ### Helper lemmas -/

/-- A delivery function that never throws dispatches every notification. -/
theorem runNotifs_all_true (l : List Notif) : runNotifs (fun _ => true) l = l := by
  induction l with
  | nil => rfl
  | cons n ns ih => simp [runNotifs, ih]

/-- Appending a fresh record for `u` to a table with no record for `u` makes
it the record the user-score query finds. -/
theorem getUserScore_append_fresh {store : Store} {u : String}
    (h : getUserScore store u = none) (r : ScoreRecord) (hr : r.userId = u) :
    getUserScore (store ++ [r]) u = some r := by
  unfold getUserScore at h ⊢
  rw [List.find?_append, h]
  simp [List.find?, hr]

/-- The gate on a fresh user with a successful put: acceptance response,
record appended, notification sequence dispatched. -/
theorem submitScore_fresh {store : Store} {u : String}
    (h : getUserScore store u = none) (deliver : Notif → Bool)
    (un : String) (sc : ℚ) (ts : Nat) :
    submitScore deliver true store u un sc ts =
      ⟨acceptedResponse, store ++ [⟨u, sc, un, ts⟩],
        runNotifs deliver (gateNotifSeq un sc (store ++ [⟨u, sc, un, ts⟩]))⟩ := by
  simp [submitScore, h]

/-! ### The claims -/

/-- **C1, counterexample.**  The claim says the `AlreadySubmitted` outcome's
reason carries the existing stored score.  It does not: the gate returns the
same fixed response whether the stored score is 1500 or 9999, so the reason
cannot carry the stored value (concretely, resubmitting `u1` after a stored
1500 yields the generic message, not one mentioning 1500). -/
theorem already_submitted_reason_is_generic :
    (submitScore (fun _ => true) true [⟨"u1", 1500, "alice", 0⟩] "u1" "alice" 2000 1).resp
      = (submitScore (fun _ => true) true [⟨"u1", 9999, "alice", 0⟩] "u1" "alice" 2000 1).resp
    ∧ (submitScore (fun _ => true) true [⟨"u1", 1500, "alice", 0⟩] "u1" "alice" 2000 1).resp.error
      = some alreadySubmittedMsg := by
  constructor <;> rfl

/-- **C1 (amended).**  For every userId that already has a stored record, a
subsequent `submitScore` returns the `AlreadySubmitted` outcome with the
fixed generic message (which does not carry the existing score), performs no
write (the store is unchanged), and fires no notifications. -/
theorem duplicate_submission_rejected_without_effects
    (deliver : Notif → Bool) (putOk : Bool) (store : Store)
    (u un : String) (sc : ℚ) (ts : Nat) (r : ScoreRecord)
    (h : getUserScore store u = some r) :
    submitScore deliver putOk store u un sc ts =
      ⟨alreadySubmittedResponse, store, []⟩ := by
  simp [submitScore, h]

/-- **C1, witness.**  Scenario B: after `u1`/alice stored 1500, a second
submission of 2000 is rejected with no write and no notifications. -/
theorem duplicate_submission_rejected_without_effects_witness :
    submitScore (fun _ => true) true [⟨"u1", 1500, "alice", 0⟩] "u1" "alice" 2000 1
      = ⟨alreadySubmittedResponse, [⟨"u1", 1500, "alice", 0⟩], []⟩ :=
  duplicate_submission_rejected_without_effects (fun _ => true) true
    [⟨"u1", 1500, "alice", 0⟩] "u1" "alice" 2000 1 ⟨"u1", 1500, "alice", 0⟩ (by decide)

/-- **C6 (code bug).**  `broadcastLeaderboardUpdate` is not room-scoped: with
two connected clients of which `c2` is in no room (the service keeps no room
memberships and registers no join handler at all), the broadcast is delivered
to both clients via `io.emit`, so `c2` receives it even though it is not a
member of room `leaderboard` — contradicting the spec and the repository's
own tests, which expect `io.to('leaderboard')` scoping. -/
theorem leaderboard_broadcast_reaches_non_members :
    broadcastLeaderboardUpdate ⟨true, ["c1", "c2"]⟩ [] = Except.ok ["c1", "c2"]
    ∧ "c2" ∉ roomMembers ⟨true, ["c1", "c2"]⟩ "leaderboard" := by
  constructor
  · rfl
  · simp [roomMembers]

/-- **C9 (confirmed).**  Before `initialize` has run (`io` is null), both
`sendNotification` and `broadcastLeaderboardUpdate` return normally with no
emission and no error, for every payload. -/
theorem uninitialized_ws_is_silent_noop
    (clients : List String) (payload : Notif) (top : List ScoreRecord) :
    sendNotification ⟨false, clients⟩ payload = Except.ok []
    ∧ broadcastLeaderboardUpdate ⟨false, clients⟩ top = Except.ok [] := by
  constructor <;> rfl

/-- **C10 (confirmed).**  Every accepted submission — regardless of the
submitted score, including 0 — returns `isHighScore = true`,
`isFirstScore = true`, `alreadySubmitted = false`: the `isHighScore` flag is
hard-coded and does not depend on the score. -/
theorem accepted_outcome_flags_are_constant
    (deliver : Notif → Bool) (store : Store) (u un : String) (sc : ℚ) (ts : Nat)
    (h : getUserScore store u = none) :
    (submitScore deliver true store u un sc ts).resp.isHighScore = some true
    ∧ (submitScore deliver true store u un sc ts).resp.isFirstScore = some true
    ∧ (submitScore deliver true store u un sc ts).resp.alreadySubmitted = some false := by
  rw [submitScore_fresh h]
  exact ⟨rfl, rfl, rfl⟩

/-- **C10, witness.**  A score of 0 on an empty store is accepted with
`isHighScore = true`. -/
theorem accepted_outcome_flags_are_constant_witness :
    (submitScore (fun _ => true) true [] "u1" "alice" 0 0).resp.isHighScore = some true
    ∧ (submitScore (fun _ => true) true [] "u1" "alice" 0 0).resp.isFirstScore = some true
    ∧ (submitScore (fun _ => true) true [] "u1" "alice" 0 0).resp.alreadySubmitted = some false :=
  accepted_outcome_flags_are_constant (fun _ => true) [] "u1" "alice" 0 0 rfl

/-- **C4, counterexample.**  The claim says every score that is not an
integer in `[0, 1_000_000]` is rejected with no store access.  The route only
checks `typeof score === 'number'`, `score >= 0` and `score <= 1_000_000` —
integrality is never checked — so the non-integer score `7/2` passes
validation, the store is accessed, the fractional record is written, and the
request succeeds with 200. -/
theorem fractional_score_passes_validation :
    (0 ≤ mkRat 7 2 ∧ mkRat 7 2 ≤ 1000000 ∧ (mkRat 7 2).den ≠ 1)
    ∧ (postSubmit (fun _ => true) true [] "u1" "alice" (BodyScore.num (mkRat 7 2)) 0).status
        = RouteStatus.ok200
    ∧ (postSubmit (fun _ => true) true [] "u1" "alice" (BodyScore.num (mkRat 7 2)) 0).storeAccessed
        = true
    ∧ (postSubmit (fun _ => true) true [] "u1" "alice" (BodyScore.num (mkRat 7 2)) 0).store
        = [⟨"u1", mkRat 7 2, "alice", 0⟩] := by
  decide

/-- **C4 (amended).**  Non-number bodies and number scores outside
`[0, 1_000_000]` — in particular `-1` and `1_000_001` — are rejected with a
400 client error, with no store access and no notifications; integrality of
in-range numbers is not checked. -/
theorem out_of_range_score_rejected_without_store_access
    (deliver : Notif → Bool) (putOk : Bool) (store : Store) (u un : String) (ts : Nat) :
    (∀ sc : ℚ, sc < 0 ∨ 1000000 < sc →
        postSubmit deliver putOk store u un (BodyScore.num sc) ts
          = ⟨RouteStatus.bad400, store, [], false⟩)
    ∧ postSubmit deliver putOk store u un BodyScore.other ts
        = ⟨RouteStatus.bad400, store, [], false⟩ := by
  constructor
  · intro sc hsc
    rcases hsc with h | h
    · simp [postSubmit, h]
    · have hneg : ¬ sc < 0 := by linarith
      simp [postSubmit, hneg, h]
  · rfl

/-- **C4, witness.**  Score `-1` and score `1_000_001` are both rejected with
no store access and no notifications. -/
theorem out_of_range_score_rejected_without_store_access_witness :
    postSubmit (fun _ => true) true [] "u1" "alice" (BodyScore.num (-1)) 0
      = ⟨RouteStatus.bad400, [], [], false⟩
    ∧ postSubmit (fun _ => true) true [] "u1" "alice" (BodyScore.num 1000001) 0
      = ⟨RouteStatus.bad400, [], [], false⟩ :=
  ⟨(out_of_range_score_rejected_without_store_access (fun _ => true) true [] "u1" "alice" 0).1
      (-1) (Or.inl (by norm_num)),
   (out_of_range_score_rejected_without_store_access (fun _ => true) true [] "u1" "alice" 0).1
      1000001 (Or.inr (by norm_num))⟩

/-- **C3, counterexample.**  The claim says a HIGH_SCORE notification is
emitted exactly once per accepted submission with score > 1000.  For the
accepted score 1500 the gate (`DynamoService.submitScore`) dispatches one
HIGH_SCORE and the route (`POST /submit` in `scores.ts`) dispatches a second,
so two are emitted. -/
theorem high_score_notification_emitted_twice :
    highScoreCount
      (postSubmit (fun _ => true) true [] "u1" "alice" (BodyScore.num 1500) 0).notifs = 2 := by
  decide

/-- **C3 (amended).**  For an accepted submission with non-throwing delivery:
no HIGH_SCORE notification is dispatched when the score is ≤ 1000, and
exactly two are dispatched when the score is > 1000 (one by the gate, one by
the websocket route). -/
theorem high_score_notification_count
    (store : Store) (u un : String) (sc : ℚ) (ts : Nat)
    (h0 : 0 ≤ sc) (h1 : sc ≤ 1000000) (h : getUserScore store u = none) :
    highScoreCount (postSubmit (fun _ => true) true store u un (BodyScore.num sc) ts).notifs
      = if 1000 < sc then 2 else 0 := by
  have hneg : ¬ sc < 0 := not_lt.mpr h0
  have hmax : ¬ 1000000 < sc := not_lt.mpr h1
  by_cases hhs : (1000 : ℚ) < sc <;>
    simp [postSubmit, hneg, hmax, submitScore_fresh h, acceptedResponse, runNotifs_all_true,
      gateNotifSeq, highScoreCount, List.filter_append, hhs, runNotifs]

/-- **C3, witness.**  Score 1500 on an empty store yields two HIGH_SCORE
dispatches; score 500 yields none. -/
theorem high_score_notification_count_witness :
    highScoreCount
        (postSubmit (fun _ => true) true [] "u1" "alice" (BodyScore.num 1500) 7).notifs
      = (if (1000 : ℚ) < 1500 then 2 else 0)
    ∧ highScoreCount
        (postSubmit (fun _ => true) true [] "u2" "bob" (BodyScore.num 500) 7).notifs
      = (if (1000 : ℚ) < 500 then 2 else 0) :=
  ⟨high_score_notification_count [] "u1" "alice" 1500 7 (by norm_num) (by norm_num) rfl,
   high_score_notification_count [] "u2" "bob" 500 7 (by norm_num) (by norm_num) rfl⟩

/-- **C7 (confirmed).**  Broadcast failures never change the submission's
reported result: for every delivery behaviour (including one that always
throws) an accepted submission still returns the acceptance response and the
route still answers 200; and a store-write failure is returned as the typed
`storeFailureResponse`, not raised. -/
theorem broadcast_failures_never_change_outcome
    (deliver : Notif → Bool) (store : Store) (u un : String) (sc : ℚ) (ts : Nat)
    (h : getUserScore store u = none) (h0 : 0 ≤ sc) (h1 : sc ≤ 1000000) :
    (submitScore deliver true store u un sc ts).resp = acceptedResponse
    ∧ (submitScore deliver false store u un sc ts).resp = storeFailureResponse
    ∧ (postSubmit deliver true store u un (BodyScore.num sc) ts).status = RouteStatus.ok200 := by
  have hneg : ¬ sc < 0 := not_lt.mpr h0
  have hmax : ¬ 1000000 < sc := not_lt.mpr h1
  refine ⟨?_, ?_, ?_⟩
  · rw [submitScore_fresh h]
  · simp [submitScore, h]
  · simp [postSubmit, hneg, hmax, submitScore_fresh h, acceptedResponse]

/-- **C7, witness.**  With a delivery function that always throws, the
submission of 1500 by `u1` on an empty store is still accepted and the route
still answers 200; a failed put returns the typed failure response. -/
theorem broadcast_failures_never_change_outcome_witness :
    (submitScore (fun _ => false) true [] "u1" "alice" 1500 0).resp = acceptedResponse
    ∧ (submitScore (fun _ => false) false [] "u1" "alice" 1500 0).resp = storeFailureResponse
    ∧ (postSubmit (fun _ => false) true [] "u1" "alice" (BodyScore.num 1500) 0).status
        = RouteStatus.ok200 :=
  broadcast_failures_never_change_outcome (fun _ => false) [] "u1" "alice" 1500 0 rfl
    (by norm_num) (by norm_num)

/-- **C5, counterexample.**  The claim says ties are broken by earliest
`submittedAt`.  The comparator sorts by score only and the stable sort keeps
scan order on ties: with two equal scores where the second scanned record has
the earlier timestamp, the output keeps scan order, so the record with the
later timestamp comes first. -/
theorem top_scores_tie_not_broken_by_timestamp :
    getTopScores 10 [⟨"u1", 100, "a", 10⟩, ⟨"u2", 100, "b", 5⟩]
      = [⟨"u1", 100, "a", 10⟩, ⟨"u2", 100, "b", 5⟩]
    ∧ (⟨"u1", 100, "a", 10⟩ : ScoreRecord).score = (⟨"u2", 100, "b", 5⟩ : ScoreRecord).score
    ∧ (⟨"u2", 100, "b", 5⟩ : ScoreRecord).timestamp
        < (⟨"u1", 100, "a", 10⟩ : ScoreRecord).timestamp := by
  decide

/-- **C5 (amended).**  For every store state and every `n`, the top-N list is
ordered by score descending (ties are left in the store's scan order, not
broken by `submittedAt`) and contains at most `n` entries. -/
theorem top_scores_sorted_and_bounded (limit : Nat) (store : Store) :
    (getTopScores limit store).Pairwise scoreDescComp
    ∧ (getTopScores limit store).length ≤ limit := by
  constructor
  · exact List.Pairwise.sublist (List.take_sublist _ _)
      (List.sorted_insertionSort scoreDescComp (store.filter validRecord))
  · simp [getTopScores]

/-! ### Connection registry lemmas (towards C8) -/

/-- One lifecycle event keeps the client set duplicate-free. -/
theorem nodup_stepClients {s : List String} (h : s.Nodup) (e : WsEvent) :
    (stepClients s e).Nodup := by
  cases e with
  | connect id =>
    by_cases hid : id ∈ s
    · simpa [stepClients, hid] using h
    · simp [stepClients, hid, List.nodup_append, h]
  | disconnect id =>
    simpa [stepClients] using h.erase id

/-- The client set stays duplicate-free along any event sequence. -/
theorem nodup_runClientsFrom (es : List WsEvent) :
    ∀ s : List String, s.Nodup → (runClientsFrom s es).Nodup := by
  induction es with
  | nil => intro s h; exact h
  | cons e es ih => intro s h; exact ih _ (nodup_stepClients h e)

/-- Membership in the client set after the events equals liveness: starting
from a duplicate-free set, an id is in the final set exactly when the last
event mentioning it (if any) was a connect, given its initial presence. -/
theorem mem_runClientsFrom (es : List WsEvent) :
    ∀ (s : List String) (id : String), s.Nodup →
      (id ∈ runClientsFrom s es ↔ liveAfterFrom (decide (id ∈ s)) es id = true) := by
  induction es with
  | nil => intro s id _; simp [runClientsFrom, liveAfterFrom]
  | cons e es ih =>
    intro s id hnd
    cases e with
    | connect j =>
      have hstep : decide (id ∈ stepClients s (WsEvent.connect j))
          = (if j = id then true else decide (id ∈ s)) := by
        by_cases hj : j = id
        · subst hj
          by_cases hjs : j ∈ s <;> simp [stepClients, hjs]
        · by_cases hjs : j ∈ s <;>
            simp [stepClients, hjs, hj, Ne.symm hj]
      rw [show runClientsFrom s (WsEvent.connect j :: es)
            = runClientsFrom (stepClients s (WsEvent.connect j)) es from rfl,
        show liveAfterFrom (decide (id ∈ s)) (WsEvent.connect j :: es) id
            = liveAfterFrom (if j = id then true else decide (id ∈ s)) es id from rfl,
        ih _ id (nodup_stepClients hnd _), hstep]
    | disconnect j =>
      have hstep : decide (id ∈ stepClients s (WsEvent.disconnect j))
          = (if j = id then false else decide (id ∈ s)) := by
        by_cases hj : j = id
        · subst hj
          simp [stepClients, List.Nodup.mem_erase_iff hnd]
        · simp [stepClients, List.Nodup.mem_erase_iff hnd, hj, Ne.symm hj]
      rw [show runClientsFrom s (WsEvent.disconnect j :: es)
            = runClientsFrom (stepClients s (WsEvent.disconnect j)) es from rfl,
        show liveAfterFrom (decide (id ∈ s)) (WsEvent.disconnect j :: es) id
            = liveAfterFrom (if j = id then false else decide (id ∈ s)) es id from rfl,
        ih _ id (nodup_stepClients hnd _), hstep]

/-- **C8 (confirmed).**  After any sequence of connect/disconnect events:
an id is in `connectedClients` exactly when it connected and did not
disconnect afterwards; the set is duplicate-free, so
`getStats().connectedClients` equals the number of distinct live connections;
a disconnect for an absent (unknown or already-removed) id is a no-op; and a
connect for a fresh id adds exactly that one id. -/
theorem connected_clients_count_correct :
    (∀ (es : List WsEvent) (id : String), id ∈ runClients es ↔ liveAfter es id = true)
    ∧ (∀ es : List WsEvent, (runClients es).Nodup)
    ∧ (∀ es : List WsEvent,
        getStatsConnectedClients ⟨true, runClients es⟩ = (runClients es).toFinset.card)
    ∧ (∀ (s : List String) (id : String), id ∉ s →
        stepClients s (WsEvent.disconnect id) = s)
    ∧ (∀ (s : List String) (id : String), id ∉ s →
        stepClients s (WsEvent.connect id) = s ++ [id]) := by
  refine ⟨?_, ?_, ?_, ?_, ?_⟩
  · intro es id
    simpa [liveAfter] using mem_runClientsFrom es [] id List.nodup_nil
  · intro es
    exact nodup_runClientsFrom es [] List.nodup_nil
  · intro es
    rw [show runClients es = runClientsFrom [] es from rfl,
      List.toFinset_card_of_nodup (nodup_runClientsFrom es [] List.nodup_nil)]
    rfl
  · intro s id h
    simp [stepClients, List.erase_of_not_mem h]
  · intro s id h
    simp [stepClients, h]

/-- **C8, witness.**  Concrete instances: liveness of `b` after a short event
history, and the two no-op/add clauses at `s = ["a"]`, `id = "b"`. -/
theorem connected_clients_count_correct_witness :
    ("b" ∈ runClients [WsEvent.connect "a", WsEvent.connect "b", WsEvent.disconnect "a"]
      ↔ liveAfter [WsEvent.connect "a", WsEvent.connect "b", WsEvent.disconnect "a"] "b" = true)
    ∧ stepClients ["a"] (WsEvent.disconnect "b") = ["a"]
    ∧ stepClients ["a"] (WsEvent.connect "b") = ["a"] ++ ["b"] :=
  ⟨connected_clients_count_correct.1 _ _,
   connected_clients_count_correct.2.2.2.1 ["a"] "b" (by decide),
   connected_clients_count_correct.2.2.2.2 ["a"] "b" (by decide)⟩

/-! ### The submission race (C2) -/

/-- **C2, counterexample.**  The claim says the accept/reject decision is
linearizable via a conditional put-if-absent.  The gate actually issues a
plain read then an unconditional put: under the interleaving
read₁, read₂, write₁, write₂ of two concurrent calls for the same userId on
an empty store, both calls return accepted. -/
theorem racy_interleaving_double_accepts :
    (runRace ⟨"u1", 1500, "alice", 0⟩ ⟨"u1", 2000, "mallory", 1⟩ []
        [true, false, true, false]).t1.accepted = some true
    ∧ (runRace ⟨"u1", 1500, "alice", 0⟩ ⟨"u1", 2000, "mallory", 1⟩ []
        [true, false, true, false]).t2.accepted = some true := by
  decide

/-- **C2 (amended).**  The gate's decision is a plain (non-atomic)
read-then-write: when the two calls for the same fresh userId are serialized,
exactly the first is accepted and the second is rejected, but there is an
interleaving of the two calls' reads and writes under which both are
accepted — no conditional put-if-absent protects the write. -/
theorem read_then_write_gate_races
    (u un1 un2 : String) (sc1 sc2 : ℚ) (ts1 ts2 : Nat) (init : Store)
    (h : getUserScore init u = none) :
    ((runRace ⟨u, sc1, un1, ts1⟩ ⟨u, sc2, un2, ts2⟩ init
        [true, true, false, false]).t1.accepted = some true
     ∧ (runRace ⟨u, sc1, un1, ts1⟩ ⟨u, sc2, un2, ts2⟩ init
        [true, true, false, false]).t2.accepted = some false)
    ∧ ((runRace ⟨u, sc1, un1, ts1⟩ ⟨u, sc2, un2, ts2⟩ init
        [true, false, true, false]).t1.accepted = some true
     ∧ (runRace ⟨u, sc1, un1, ts1⟩ ⟨u, sc2, un2, ts2⟩ init
        [true, false, true, false]).t2.accepted = some true) := by
  have h2 : getUserScore (init ++ [⟨u, sc1, un1, ts1⟩]) u = some ⟨u, sc1, un1, ts1⟩ :=
    getUserScore_append_fresh h _ rfl
  refine ⟨⟨?_, ?_⟩, ?_, ?_⟩ <;>
    simp [runRace, raceStep, threadStep, threadInit, h, h2]

/-- **C2, witness.**  The race theorem instantiated on an empty store with
`u2`/bob (serial: first accepted, second rejected) and the racy interleaving
accepting both. -/
theorem read_then_write_gate_races_witness :
    ((runRace ⟨"u2", 500, "bob", 3⟩ ⟨"u2", 700, "carol", 4⟩ []
        [true, true, false, false]).t1.accepted = some true
     ∧ (runRace ⟨"u2", 500, "bob", 3⟩ ⟨"u2", 700, "carol", 4⟩ []
        [true, true, false, false]).t2.accepted = some false)
    ∧ ((runRace ⟨"u2", 500, "bob", 3⟩ ⟨"u2", 700, "carol", 4⟩ []
        [true, false, true, false]).t1.accepted = some true
     ∧ (runRace ⟨"u2", 500, "bob", 3⟩ ⟨"u2", 700, "carol", 4⟩ []
        [true, false, true, false]).t2.accepted = some true) :=
  read_then_write_gate_races "u2" "bob" "carol" 500 700 3 4 [] rfl

end Leaderboard
